import Mathlib

/-!
# Verification of the Guahh Auth widget core (src/guahh-auth.js, src/guahh-auth-api.js)

Shallow embedding of the session/handshake manager: the module-level mutable
state (`callbacks`, `authPopup`, the `localStorage` slot under `guahh_user`,
the registered `message` listeners and the liveness-poll timers) is modelled
as an explicit `AuthState` record, and every observable side effect
(localStorage writes, callback invocations, popup opens/closes, console
errors and alerts) is appended to an event trace.

Platform JSON is modelled abstractly: a persisted string is either the
canonical serialization of a JS value (`StoredString.json j`, the output of
`JSON.stringify`) or a string that is not valid JSON (`StoredString.notJson s`),
on which `JSON.parse` throws.  Callback functions are identified by numeric
ids; invoking one is recorded as a trace event.  JS `undefined` arising from
a missing object field is modelled as `Json.null` at the destructuring
boundary (no claim depends on the distinction).
-/

namespace Guahh

/-- JavaScript structured-clone values that can travel in a `message` event
or be serialized by `JSON.stringify`. -/
inductive Json where
  | null
  | bool (b : Bool)
  | num (n : Int)
  | str (s : String)
  | arr (elems : List Json)
  | obj (fields : List (String × Json))

/-- JS truthiness of a value (`if (event.data)`): `null`, `false`, `0` and
`""` are falsy; arrays and objects are always truthy. -/
def Json.truthy : Json → Bool
  | .null => false
  | .bool b => b
  | .num n => n != 0
  | .str s => s != ""
  | .arr _ => true
  | .obj _ => true

/-- JS property access `v.k`: defined only on objects, `none` models
`undefined` (missing field, or access on a non-object payload). -/
def Json.getField : Json → String → Option Json
  | .obj fields, k => fields.lookup k
  | _, _ => none

/-- A string value sitting in `localStorage`, classified by whether it is
valid JSON.  `json j` is the canonical `JSON.stringify` output for `j`;
`notJson s` is a string (written by something other than this widget) that
`JSON.parse` rejects. -/
inductive StoredString where
  | json (j : Json)
  | notJson (s : String)

/-- Platform `JSON.stringify`: on a structured value it always yields valid JSON. -/
def JSON_stringify (j : Json) : StoredString := .json j

/-- Platform `JSON.parse`: succeeds exactly on valid JSON and is a left inverse of
`JSON.stringify`; on anything else it throws a `SyntaxError` carrying the
offending text. -/
def JSON_parse : StoredString → Except String Json
  | .json j => .ok j
  | .notJson s => .error s

/-- JS truthiness of a stored string (`if (storedUser)`): only the empty
string is falsy; a `JSON.stringify` output is never empty. -/
def StoredString.isTruthy : StoredString → Bool
  | .json _ => true
  | .notJson s => s != ""

/-- One observable side effect of the widget, in chronological order in the
trace. -/
inductive Event where
  /-- Write `localStorage.setItem('guahh_user', v)` -/
  | setItem (v : StoredString)
  /-- Remove `localStorage.removeItem('guahh_user')` -/
  | removeItem
  /-- invocation of login callback `cb` with arguments `(user, service)` -/
  | loginCb (cb : Nat) (user : Json) (service : Json)
  /-- invocation of logout callback `cb` with argument `user` (`none` = null) -/
  | logoutCb (cb : Nat) (user : Option Json)
  /-- Call of `window.open(url, name, features)` -/
  | windowOpen (url : String) (winName : String) (features : String)
  /-- Call of `popup.close()` on the window with this id -/
  | popupClose (id : Nat)
  /-- Log `console.error(msg)` -/
  | consoleError (msg : String)
  /-- Blocking `alert(msg)` -/
  | alertShown (msg : String)

/-- The module-level state of guahh-auth.js plus the event trace. -/
structure AuthState where
  /-- Registry `callbacks.login`: ordered login callback ids -/
  loginCbs : List Nat := []
  /-- Registry `callbacks.logout`: ordered logout callback ids -/
  logoutCbs : List Nat := []
  /-- Handle `authPopup`: the tracked popup window id, `null` = `none` -/
  popup : Option Nat := none
  /-- ids of popup windows that have been closed (manually or via `close()`) -/
  closedPopups : List Nat := []
  /-- active `setInterval` liveness-poll timer ids -/
  timers : List Nat := []
  /-- Slot `localStorage['guahh_user']`: `none` when the key is absent -/
  storage : Option StoredString := none
  /-- number of `message` listeners registered by `init()` calls -/
  listenerCount : Nat := 0
  /-- fresh-id counter for window and timer ids -/
  nextId : Nat := 0
  /-- chronological trace of observable effects -/
  trace : List Event := []

def AUTH_PAGE_URL : String := "guahh-auth-page.html"

def STORAGE_KEY : String := "guahh_user"

/-- The synthesized service descriptor `{serviceName: 'Cached Session'}` used
by the init-time replay. -/
def cachedSessionService : Json := .obj [("serviceName", .str "Cached Session")]

/-- Operation `GuahhAuth.onLogin(cb)` (guahh-auth.js:127-131); every modelled id
denotes a function, so the `typeof` guard passes. -/
def onLogin (cb : Nat) (st : AuthState) : AuthState :=
  { st with loginCbs := st.loginCbs ++ [cb] }

/-- Operation `GuahhAuth.onLogout(cb)` (guahh-auth.js:137-141). -/
def onLogout (cb : Nat) (st : AuthState) : AuthState :=
  { st with logoutCbs := st.logoutCbs ++ [cb] }

/-- Operation `GuahhAuth.getUser()` (guahh-auth.js:107-110):
`storedUser ? JSON.parse(storedUser) : null`, where `JSON.parse` may throw. -/
def getUser (st : AuthState) : Except String (Option Json) :=
  match st.storage with
  | none => .ok none
  | some s => if s.isTruthy then (JSON_parse s).map some else .ok none

/-- The storage write performed on handshake success (guahh-auth.js:36),
i.e. SessionStore.setUser: `localStorage.setItem(STORAGE_KEY, JSON.stringify(user))`. -/
def setUser (u : Json) (st : AuthState) : AuthState :=
  { st with
      storage := some (JSON_stringify u)
      trace := st.trace ++ [.setItem (JSON_stringify u)] }

/-- An inbound cross-window `message` event: the handler destructures only
`event.data`; `origin` and `source` are carried by the event but never read. -/
structure MessageEvent where
  data : Json
  origin : String
  source : Nat

/-- Does the payload pass the filter `event.data && event.data.type === 'GUAHH_AUTH_SUCCESS'`?
Strict string equality: true exactly when the field is that string. -/
def isSuccessTag : Option Json → Bool
  | some (.str s) => s == "GUAHH_AUTH_SUCCESS"
  | _ => false

/-- One run of the listener registered by `init()` (guahh-auth.js:31-47) on a
single inbound message: filter on `event.data.type`, then store the user,
fire the login callbacks in registration order, and close and clear the
tracked popup. -/
def handleMessage (e : MessageEvent) (st : AuthState) : AuthState :=
  if e.data.truthy && isSuccessTag (e.data.getField "type") then
    let user := (e.data.getField "user").getD .null
    let service := (e.data.getField "service").getD .null
    let st1 : AuthState :=
      { st with
          storage := some (JSON_stringify user)
          trace := st.trace ++ [.setItem (JSON_stringify user)] }
    let st2 : AuthState :=
      { st1 with
          trace := st1.trace ++ st1.loginCbs.map (fun cb => .loginCb cb user service) }
    match st2.popup with
    | some p =>
        { st2 with
            popup := none
            closedPopups := p :: st2.closedPopups
            trace := st2.trace ++ [.popupClose p] }
    | none => st2
  else st

/-- Browser dispatch of one `message` event: every registered listener (all
of them the identical closure from `init()`) runs in registration order. -/
def deliverMessage (e : MessageEvent) (st : AuthState) : AuthState :=
  (handleMessage e)^[st.listenerCount] st

/-- Configuration accepted by `init()`; the only documented option. -/
structure Options where
  authPageUrl : Option String := none

/-- The local `const authPageUrl = options.authPageUrl || AUTH_PAGE_URL`
(guahh-auth.js:28); `||` falls through on the falsy empty string.  Computed
by `init` and never used afterwards. -/
def initAuthPageUrl (options : Options) : String :=
  match options.authPageUrl with
  | some s => if s == "" then AUTH_PAGE_URL else s
  | none => AUTH_PAGE_URL

/-- Operation `GuahhAuth.init(options)` (guahh-auth.js:27-56): registers one more
`message` listener, then reads the persisted session; if one is present,
`JSON.parse` it (propagating a parse throw) and replay a login notification
to every currently registered login callback with the synthesized
`Cached Session` service. -/
def init (options : Options) (st : AuthState) : Except String AuthState :=
  let _authPageUrl := initAuthPageUrl options
  let st1 : AuthState := { st with listenerCount := st.listenerCount + 1 }
  match st1.storage with
  | some s =>
      if s.isTruthy then
        match JSON_parse s with
        | .ok user =>
            .ok { st1 with
                    trace := st1.trace ++
                      st1.loginCbs.map (fun cb => .loginCb cb user cachedSessionService) }
        | .error msg => .error msg
      else .ok st1
  | none => .ok st1

/-- Operation `GuahhAuth.logout()` (guahh-auth.js:115-121): read the current user
(`this.getUser()` may throw on malformed storage), remove the stored record,
then fire the logout callbacks in registration order with that user. -/
def logout (st : AuthState) : Except String AuthState := do
  let user ← getUser st
  let st1 : AuthState := { st with storage := none, trace := st.trace ++ [.removeItem] }
  .ok { st1 with
          trace := st1.trace ++ st1.logoutCbs.map (fun cb => .logoutCb cb user) }

/-- The host environment read by `show()`: page title, origin, screen
geometry, and whether the browser blocks the popup. -/
structure Env where
  title : String
  origin : String
  screenW : Int
  screenH : Int
  popupBlocked : Bool

/-- The `serviceInfo` argument of `GuahhAuth.show`; missing properties are
`undefined` (`none`). -/
structure ServiceInfo where
  name : Option String := none
  url : Option String := none

/-- JS `a || b` on an optional string: falls through on `undefined` and on
the falsy empty string. -/
def strOr (a : Option String) (b : String) : String :=
  match a with
  | some s => if s == "" then b else s
  | none => b

/-- One hex digit (uppercase), for percent-encoding. -/
def hexDigit (n : Nat) : Char :=
  if n < 10 then Char.ofNat (48 + n) else Char.ofNat (55 + (n - 10))

/-- The UTF-8 bytes of a character, for percent-encoding. -/
def utf8Bytes (c : Char) : List Nat :=
  let n := c.toNat
  if n < 0x80 then [n]
  else if n < 0x800 then [0xC0 + n / 0x40, 0x80 + n % 0x40]
  else if n < 0x10000 then
    [0xE0 + n / 0x1000, 0x80 + (n / 0x40) % 0x40, 0x80 + n % 0x40]
  else
    [0xF0 + n / 0x40000, 0x80 + (n / 0x1000) % 0x40, 0x80 + (n / 0x40) % 0x40,
     0x80 + n % 0x40]

/-- Form-urlencoded (`application/x-www-form-urlencoded`) encoding of one character, as
`URLSearchParams.toString()` does: ASCII alphanumerics and `*-._` pass
through, space becomes `+`, everything else is percent-encoded. -/
def formEncodeChar (c : Char) : String :=
  if c == ' ' then "+"
  else if c.isAlphanum || c == '*' || c == '-' || c == '.' || c == '_' then
    String.singleton c
  else
    String.join ((utf8Bytes c).map fun b =>
      String.mk ['%', hexDigit (b / 16), hexDigit (b % 16)])

/-- Encoding of a whole string, as `URLSearchParams` does it. -/
def formEncode (s : String) : String :=
  String.join (s.data.map formEncodeChar)

/-- Value of `Math.round(k / 2)` for an integer `k` (JS rounds halves toward +inf). -/
def jsRoundHalfOfDiv2 (k : Int) : Int := (k + 1).fdiv 2

/-- The popup URL built by `show()` (guahh-auth.js:65-74): the fixed
`AUTH_PAGE_URL` constant plus `service` and `url` query parameters, with the
documented fallbacks to the page title / `'this service'` and the page
origin. -/
def showAuthUrl (env : Env) (svc : ServiceInfo) : String :=
  let serviceName := strOr svc.name (if env.title == "" then "this service" else env.title)
  let serviceUrl := strOr svc.url env.origin
  AUTH_PAGE_URL ++ "?service=" ++ formEncode serviceName ++ "&url=" ++ formEncode serviceUrl

/-- The window-features string built by `show()` (guahh-auth.js:76-82). -/
def showFeatures (env : Env) : String :=
  let left := jsRoundHalfOfDiv2 (env.screenW - 500)
  let top := jsRoundHalfOfDiv2 (env.screenH - 650)
  "width=500,height=650,left=" ++ toString left ++ ",top=" ++ toString top ++
    ",resizable=yes,scrollbars=yes,status=yes"

/-- Operation `GuahhAuth.show(serviceInfo)` (guahh-auth.js:64-101): build the URL,
call `window.open` (the result — a fresh handle, or `null` when blocked — is
assigned to `authPopup` unconditionally); when open, focus it and start the
500ms liveness-poll timer; when blocked, log and alert.  (Named `show` in the
source; `show` is a Lean keyword.) -/
def showAuth (env : Env) (svc : ServiceInfo) (st : AuthState) : AuthState :=
  let authUrl := showAuthUrl env svc
  let st1 : AuthState :=
    { st with trace := st.trace ++ [.windowOpen authUrl "GuahhAuth" (showFeatures env)] }
  if env.popupBlocked then
    { st1 with
        popup := none
        trace := st1.trace ++
          [.consoleError "Popup blocked. Please allow popups for this site.",
           .alertShown "Please allow popups to sign in with Guahh Account."] }
  else
    let pid := st1.nextId
    { st1 with
        popup := some pid
        nextId := st1.nextId + 2
        timers := st1.timers ++ [pid + 1] }

/-- One tick of a liveness-poll timer `t` (guahh-auth.js:91-96): an inactive
(cleared) timer does nothing; an active one checks the *module-level*
`authPopup` handle, and only when it refers to a closed window does it cancel
itself and clear the handle. -/
def pollTick (t : Nat) (st : AuthState) : AuthState :=
  if t ∈ st.timers then
    match st.popup with
    | some p =>
        if p ∈ st.closedPopups then
          { st with timers := st.timers.erase t, popup := none }
        else st
    | none => st
  else st

/-- External action: the user manually closes the popup window `p`; the
window's `closed` flag flips, nothing inside the widget runs yet. -/
def userClosesPopup (p : Nat) (st : AuthState) : AuthState :=
  { st with closedPopups := p :: st.closedPopups }

/-- Operation `GuahhAuthAPI.showLogin(options)` (guahh-auth-api.js:72-85): when an
`onSuccess` callback is supplied it is registered through
`GuahhAuth.onLogin` (permanently — there is no unsubscribe), then
`GuahhAuth.show` runs with the forwarded service info. -/
def API_showLogin (onSuccess : Option Nat) (serviceName serviceUrl : Option String)
    (env : Env) (st : AuthState) : AuthState :=
  let st1 := match onSuccess with
    | some cb => onLogin cb st
    | none => st
  showAuth env { name := serviceName, url := serviceUrl } st1

/-- Operation `GuahhAuthAPI.logout(callback)` (guahh-auth-api.js:113-118): an optional
callback is registered through `GuahhAuth.onLogout` (permanently), then
`GuahhAuth.logout()` runs. -/
def API_logout (callback : Option Nat) (st : AuthState) : Except String AuthState :=
  let st1 := match callback with
    | some cb => onLogout cb st
    | none => st
  logout st1

/-- Iterated `init()`: applied `k` times in sequence, for the reinitialization claims. -/
def initIter (options : Options) : Nat → AuthState → Except String AuthState
  | 0, st => .ok st
  | k + 1, st => do initIter options k (← init options st)

/-- The user record shape documented for the widget (guahh-auth-api.js:89-96
and spec §3): `profilePictureUrl` and `connectedServices` are optional. -/
structure UserRecord where
  userId : String
  username : String
  displayName : String
  profilePictureUrl : Option String := none
  isVerified : Bool
  connectedServices : Option (List String) := none

/-- The JSON object denoted by a well-formed UserRecord (the value the
identity provider posts and `JSON.stringify` serializes). -/
def userToJson (r : UserRecord) : Json :=
  .obj ([("userId", .str r.userId),
         ("username", .str r.username),
         ("displayName", .str r.displayName)] ++
        (match r.profilePictureUrl with
         | some p => [("profilePictureUrl", Json.str p)]
         | none => []) ++
        [("isVerified", .bool r.isVerified)] ++
        (match r.connectedServices with
         | some cs => [("connectedServices", Json.arr (cs.map Json.str))]
         | none => []))

/-- Read a JSON value back as a string, for field decoding. -/
def Json.asStr : Json → Option String
  | .str s => some s
  | _ => none

/-- Read a JSON value back as a boolean, for field decoding. -/
def Json.asBool : Json → Option Bool
  | .bool b => some b
  | _ => none

/-- Read back a list of JSON values as strings, all-or-nothing. -/
def strListOf : List Json → Option (List String)
  | [] => some []
  | x :: xs => do
      let s ← Json.asStr x
      let rest ← strListOf xs
      pure (s :: rest)

/-- Read a JSON array of strings back as a list of strings. -/
def Json.asStrList : Json → Option (List String)
  | .arr xs => strListOf xs
  | _ => none

/-- Decode a JSON object into a UserRecord, inverting `userToJson`. -/
def userOfJson (j : Json) : Option UserRecord := do
  let userId ← (j.getField "userId").bind Json.asStr
  let username ← (j.getField "username").bind Json.asStr
  let displayName ← (j.getField "displayName").bind Json.asStr
  let profilePictureUrl := (j.getField "profilePictureUrl").bind Json.asStr
  let isVerified ← (j.getField "isVerified").bind Json.asBool
  let connectedServices := (j.getField "connectedServices").bind Json.asStrList
  pure { userId, username, displayName, profilePictureUrl, isVerified, connectedServices }

/-! ## Sample concrete values, used by the witness theorems -/

def sampleUser : Json :=
  .obj [("userId", .str "42"), ("username", .str "ada"), ("displayName", .str "Ada L.")]

def sampleService : Json := .obj [("name", .str "Acme")]

/-- A well-shaped handshake success payload. -/
def successData : Json :=
  .obj [("type", .str "GUAHH_AUTH_SUCCESS"), ("user", sampleUser), ("service", sampleService)]

/-- The success payload arriving from an untrusted window. -/
def spoofedEvent : MessageEvent :=
  { data := successData, origin := "https://attacker.example", source := 99 }

/-- The same payload arriving from the genuine popup. -/
def genuineEvent : MessageEvent :=
  { data := successData, origin := "https://guahh.example", source := 1 }

/-- A state with two login subscribers, one logout subscriber, an open
popup and one active poll timer. -/
def sampleState : AuthState :=
  { loginCbs := [1, 2], logoutCbs := [3], popup := some 10, closedPopups := [],
    timers := [11], storage := none, listenerCount := 1, nextId := 12, trace := [] }

/-! ## Helper lemmas -/

/-- The block of trace events one successful handler run appends before the
popup-close step. -/
def successBlock (u s : Json) (cbs : List Nat) : List Event :=
  Event.setItem (JSON_stringify u) :: cbs.map (fun cb => Event.loginCb cb u s)

theorem handleMessage_not_success (e : MessageEvent) (st : AuthState)
    (h : (e.data.truthy && isSuccessTag (e.data.getField "type")) = false) :
    handleMessage e st = st := by
  simp [handleMessage, h]

theorem handleMessage_success_popup_none (e : MessageEvent) (st : AuthState) (u s : Json)
    (htr : e.data.truthy = true)
    (hty : isSuccessTag (e.data.getField "type") = true)
    (hu : e.data.getField "user" = some u)
    (hs : e.data.getField "service" = some s)
    (hpop : st.popup = none) :
    handleMessage e st =
      { st with
          storage := some (JSON_stringify u)
          trace := st.trace ++ successBlock u s st.loginCbs } := by
  simp [handleMessage, htr, hty, hu, hs, hpop, successBlock]

theorem handleMessage_success_popup_some (e : MessageEvent) (st : AuthState) (u s : Json)
    (p : Nat)
    (htr : e.data.truthy = true)
    (hty : isSuccessTag (e.data.getField "type") = true)
    (hu : e.data.getField "user" = some u)
    (hs : e.data.getField "service" = some s)
    (hpop : st.popup = some p) :
    handleMessage e st =
      { st with
          storage := some (JSON_stringify u)
          popup := none
          closedPopups := p :: st.closedPopups
          trace := st.trace ++ successBlock u s st.loginCbs ++ [Event.popupClose p] } := by
  simp [handleMessage, htr, hty, hu, hs, hpop, successBlock]

/-! ## Claims -/

/-- C1: every inbound message whose payload carries the `GUAHH_AUTH_SUCCESS`
discriminant — from any window and any origin — makes the handshake listener
persist the user, dispatch the login callbacks in registration order with
`(user, service)`, and then close and clear the tracked popup, in that
order; two messages with equal payloads but different sources/origins
produce identical outcomes. -/
theorem C1_handshake_ignores_origin (st : AuthState) (e e' : MessageEvent) (u s : Json)
    (hdata : e'.data = e.data)
    (htr : e.data.truthy = true)
    (hty : isSuccessTag (e.data.getField "type") = true)
    (hu : e.data.getField "user" = some u)
    (hs : e.data.getField "service" = some s) :
    handleMessage e' st = handleMessage e st ∧
    (handleMessage e st).storage = some (JSON_stringify u) ∧
    (handleMessage e st).trace =
      st.trace ++ [Event.setItem (JSON_stringify u)] ++
        st.loginCbs.map (fun cb => Event.loginCb cb u s) ++
        (match st.popup with
         | some p => [Event.popupClose p]
         | none => []) ∧
    (handleMessage e st).popup = none ∧
    (∀ p, st.popup = some p → p ∈ (handleMessage e st).closedPopups) := by
  refine ⟨by simp [handleMessage, hdata], ?_, ?_, ?_, ?_⟩ <;>
    cases hpop : st.popup <;>
      simp [handleMessage, htr, hty, hu, hs, hpop, List.append_assoc]

theorem C1_witness :
    handleMessage genuineEvent sampleState = handleMessage spoofedEvent sampleState ∧
    (handleMessage spoofedEvent sampleState).storage = some (JSON_stringify sampleUser) ∧
    (handleMessage spoofedEvent sampleState).trace =
      sampleState.trace ++ [Event.setItem (JSON_stringify sampleUser)] ++
        sampleState.loginCbs.map (fun cb => Event.loginCb cb sampleUser sampleService) ++
        (match sampleState.popup with
         | some p => [Event.popupClose p]
         | none => []) ∧
    (handleMessage spoofedEvent sampleState).popup = none ∧
    (∀ p, sampleState.popup = some p → p ∈ (handleMessage spoofedEvent sampleState).closedPopups) :=
  C1_handshake_ignores_origin sampleState spoofedEvent genuineEvent sampleUser sampleService
    rfl rfl rfl rfl rfl

/-- A state holding a persisted session for `sampleUser`, with two login
subscribers already registered. -/
def sampleCachedState : AuthState :=
  { loginCbs := [1, 2], storage := some (JSON_stringify sampleUser) }

/-- C2: when a session is persisted at startup, `init()` dispatches the
cached-session replay — arguments `(cachedUser, {serviceName: "Cached Session"})`
— to exactly the login callbacks registered before `init()`, in registration
order; registering a callback afterwards dispatches nothing, and a callback
not registered before `init()` appears nowhere among the replay events. -/
theorem C2_replay_only_preexisting_callbacks (opts : Options) (u : Json) (st : AuthState)
    (hst : st.storage = some (JSON_stringify u)) :
    init opts st = .ok { st with
        listenerCount := st.listenerCount + 1
        trace := st.trace ++
          st.loginCbs.map (fun cb => Event.loginCb cb u cachedSessionService) } ∧
    (∀ (c : Nat) (st' : AuthState), (onLogin c st').trace = st'.trace) ∧
    (∀ c : Nat, c ∉ st.loginCbs →
      Event.loginCb c u cachedSessionService ∉
        st.loginCbs.map (fun cb => Event.loginCb cb u cachedSessionService)) := by
  refine ⟨?_, fun c st' => rfl, ?_⟩
  · simp [init, hst, JSON_stringify, JSON_parse, StoredString.isTruthy]
  · intro c hc
    simpa using hc

theorem C2_witness :
    init {} sampleCachedState = .ok { sampleCachedState with
        listenerCount := sampleCachedState.listenerCount + 1
        trace := sampleCachedState.trace ++
          sampleCachedState.loginCbs.map
            (fun cb => Event.loginCb cb sampleUser cachedSessionService) } ∧
    (∀ (c : Nat) (st' : AuthState), (onLogin c st').trace = st'.trace) ∧
    (∀ c : Nat, c ∉ sampleCachedState.loginCbs →
      Event.loginCb c sampleUser cachedSessionService ∉
        sampleCachedState.loginCbs.map
          (fun cb => Event.loginCb cb sampleUser cachedSessionService)) :=
  C2_replay_only_preexisting_callbacks {} sampleUser sampleCachedState rfl

/-- C3: after `setUser u` then `logout()`, the session is absent
(`getUser` returns `ok none`) and every registered logout callback runs
exactly once, in registration order, with exactly `u`; `logout()` with no
user logged in dispatches the logout callbacks with `null`. -/
theorem C3_logout_clears_and_notifies (u : Json) (st : AuthState)
    (hnone : st.storage = none) :
    logout (setUser u st) = .ok { st with
        storage := none
        trace := st.trace ++ [Event.setItem (JSON_stringify u), Event.removeItem] ++
          st.logoutCbs.map (fun cb => Event.logoutCb cb (some u)) } ∧
    (∀ tr : List Event, getUser { st with storage := none, trace := tr } = .ok none) ∧
    logout st = .ok { st with
        storage := none
        trace := st.trace ++ [Event.removeItem] ++
          st.logoutCbs.map (fun cb => Event.logoutCb cb none) } := by
  refine ⟨?_, fun tr => rfl, ?_⟩
  · simp [logout, setUser, getUser, JSON_stringify, JSON_parse, StoredString.isTruthy,
      Except.map, Bind.bind, Except.bind, List.append_assoc]
  · simp [logout, getUser, hnone, Bind.bind, Except.bind, List.append_assoc]

theorem C3_witness :
    logout (setUser sampleUser sampleState) = .ok { sampleState with
        storage := none
        trace := sampleState.trace ++
          [Event.setItem (JSON_stringify sampleUser), Event.removeItem] ++
          sampleState.logoutCbs.map (fun cb => Event.logoutCb cb (some sampleUser)) } ∧
    (∀ tr : List Event, getUser { sampleState with storage := none, trace := tr } = .ok none) ∧
    logout sampleState = .ok { sampleState with
        storage := none
        trace := sampleState.trace ++ [Event.removeItem] ++
          sampleState.logoutCbs.map (fun cb => Event.logoutCb cb none) } :=
  C3_logout_clears_and_notifies sampleUser sampleState rfl

/-- A state whose persisted slot holds the empty string: present, yet not
valid serialized data. -/
def emptyStringSessionState : AuthState := { storage := some (.notJson "") }

/-- C4 counterexample: the empty string persisted under the session key is
present (`getItem` returns a string, not `null`) and is not valid serialized
data (`JSON.parse` rejects it), yet `getUser()` returns absent and `init()`
succeeds with no replay and no error — the malformed-data case is silently
treated as "no session" here, contrary to the claim. -/
theorem C4_counterexample_empty_string :
    emptyStringSessionState.storage.isSome = true ∧
    JSON_parse (StoredString.notJson "") = .error "" ∧
    getUser emptyStringSessionState = .ok none ∧
    init {} emptyStringSessionState = .ok { emptyStringSessionState with listenerCount := 1 } := by
  exact ⟨rfl, rfl, rfl, rfl⟩

/-- C4 amended: if the persisted session value is present and *non-empty*
but not valid serialized data, `getUser()` and the session read inside
`init()` surface the parse error rather than returning absent; the empty
string is the one present-but-invalid value the truthiness guard silently
treats as "no session". -/
theorem C4_amended_malformed_session_errors (st : AuthState) (s : String) (opts : Options)
    (hs : st.storage = some (.notJson s)) (hne : s ≠ "") :
    getUser st = .error s ∧ init opts st = .error s := by
  have htr : (StoredString.notJson s).isTruthy = true := by
    simp [StoredString.isTruthy, hne]
  constructor
  · simp [getUser, hs, htr, JSON_parse, Except.map]
  · simp [init, hs, htr, JSON_parse]

/-- A state whose persisted slot holds a non-empty string that is not valid
JSON. -/
def malformedSessionState : AuthState := { storage := some (.notJson "not valid json") }

theorem C4_witness :
    getUser malformedSessionState = .error "not valid json" ∧
    init {} malformedSessionState = .error "not valid json" :=
  C4_amended_malformed_session_errors malformedSessionState "not valid json" {} rfl (by decide)

/-- C5: an inbound message whose payload does not pass the
`event.data && event.data.type === 'GUAHH_AUTH_SUCCESS'` filter (wrong or
missing discriminant, or no structured payload at all) leaves the whole
state unchanged — session, callbacks, popup handle and trace — both for a
single listener run and for a full browser dispatch to every registered
listener. -/
theorem C5_non_success_message_ignored (e : MessageEvent) (st : AuthState)
    (h : (e.data.truthy && isSuccessTag (e.data.getField "type")) = false) :
    handleMessage e st = st ∧ deliverMessage e st = st := by
  have h1 := handleMessage_not_success e st h
  exact ⟨h1, Function.iterate_fixed h1 st.listenerCount⟩

/-- A message carrying an unrecognized discriminant, as in spec P6. -/
def otherTagEvent : MessageEvent :=
  { data := .obj [("type", .str "OTHER")], origin := "https://anywhere.example", source := 4 }

theorem C5_witness :
    handleMessage otherTagEvent sampleState = sampleState ∧
    deliverMessage otherTagEvent sampleState = sampleState :=
  C5_non_success_message_ignored otherTagEvent sampleState rfl

/-- C6: after a handshake success message is processed with a popup tracked,
the handle is null and that popup is closed; every subsequent liveness-poll
tick observes no live popup and changes nothing; and the two termination
paths are exclusive — when the poll has already cleared the handle, a later
success message closes nothing further. -/
theorem C6_popup_termination_paths_exclusive (st : AuthState) (e : MessageEvent)
    (u s : Json) (p : Nat)
    (hpop : st.popup = some p)
    (htr : e.data.truthy = true)
    (hty : isSuccessTag (e.data.getField "type") = true)
    (hu : e.data.getField "user" = some u)
    (hs : e.data.getField "service" = some s) :
    (handleMessage e st).popup = none ∧
    p ∈ (handleMessage e st).closedPopups ∧
    (∀ t : Nat, pollTick t (handleMessage e st) = handleMessage e st) ∧
    (∀ st₂ : AuthState, st₂.popup = none →
      (handleMessage e st₂).popup = none ∧
      (handleMessage e st₂).closedPopups = st₂.closedPopups) := by
  have hmsg := handleMessage_success_popup_some e st u s p htr hty hu hs hpop
  refine ⟨by simp [hmsg], by simp [hmsg], ?_, ?_⟩
  · intro t
    simp [hmsg, pollTick]
  · intro st₂ hpop₂
    have h₂ := handleMessage_success_popup_none e st₂ u s htr hty hu hs hpop₂
    simp [h₂, hpop₂]

theorem C6_witness :
    (handleMessage genuineEvent sampleState).popup = none ∧
    10 ∈ (handleMessage genuineEvent sampleState).closedPopups ∧
    (∀ t : Nat, pollTick t (handleMessage genuineEvent sampleState) =
      handleMessage genuineEvent sampleState) ∧
    (∀ st₂ : AuthState, st₂.popup = none →
      (handleMessage genuineEvent st₂).popup = none ∧
      (handleMessage genuineEvent st₂).closedPopups = st₂.closedPopups) :=
  C6_popup_termination_paths_exclusive sampleState genuineEvent sampleUser sampleService 10
    rfl rfl rfl rfl rfl

theorem asStr_map_str_roundtrip (cs : List String) :
    strListOf (cs.map Json.str) = some cs := by
  induction cs with
  | nil => rfl
  | cons c cs ih => simp [strListOf, ih, Json.asStr]

/-- C7: storing a well-formed UserRecord through the session store
(`setUser`, i.e. the `JSON.stringify` + `setItem` write) and reading it back
with `getUser()` yields the exact same record: the serialize-then-
deserialize round trip through persisted storage is the identity. -/
theorem C7_session_roundtrip (r : UserRecord) (st : AuthState) :
    getUser (setUser (userToJson r) st) = .ok (some (userToJson r)) ∧
    userOfJson (userToJson r) = some r := by
  constructor
  · rfl
  · rcases r with ⟨uid, un, dn, pf, iv, cs⟩
    cases pf <;> cases cs <;>
      simp [userOfJson, userToJson, Json.getField, Json.asStr, Json.asBool,
        Json.asStrList, asStr_map_str_roundtrip, List.lookup]

/-- C8: the `authPageUrl` option accepted by `init()` has no effect on any
later behaviour: `init` discards it (the local it is bound to is never read),
and `show()` always builds the popup URL from the fixed `AUTH_PAGE_URL`
constant — so two configurations differing only in `authPageUrl` give
identical states and every subsequent `show()` opens the identical URL. -/
theorem C8_authPageUrl_has_no_effect (o1 o2 : Options) (st : AuthState)
    (env : Env) (svc : ServiceInfo) :
    init o1 st = init o2 st ∧
    (∀ st' : AuthState, (showAuth env svc st').trace =
      st'.trace ++ [Event.windowOpen (showAuthUrl env svc) "GuahhAuth" (showFeatures env)] ++
        (if env.popupBlocked then
          [Event.consoleError "Popup blocked. Please allow popups for this site.",
           Event.alertShown "Please allow popups to sign in with Guahh Account."]
         else [])) ∧
    showAuthUrl env svc = AUTH_PAGE_URL ++ "?service=" ++
      formEncode (strOr svc.name (if env.title == "" then "this service" else env.title)) ++
      "&url=" ++ formEncode (strOr svc.url env.origin) := by
  refine ⟨rfl, ?_, ?_⟩
  · intro st'
    cases hb : env.popupBlocked <;> simp [showAuth, hb, List.append_assoc]
  · rfl

/-- Is this trace event a `setItem` storage write? -/
def isSetItemEv : Event → Bool
  | .setItem _ => true
  | _ => false

/-- Is this trace event an invocation of login callback `c`? -/
def isLoginCallOf (c : Nat) : Event → Bool
  | .loginCb cb _ _ => cb == c
  | _ => false

theorem init_storage_none (opts : Options) (st : AuthState) (h : st.storage = none) :
    init opts st = .ok { st with listenerCount := st.listenerCount + 1 } := by
  simp [init, h]

theorem initIter_storage_none (opts : Options) (k : Nat) :
    ∀ st : AuthState, st.storage = none →
      initIter opts k st = .ok { st with listenerCount := st.listenerCount + k } := by
  induction k with
  | zero => intro st h; simp [initIter]
  | succ k ih =>
      intro st h
      have hstep := init_storage_none opts st h
      have hrest := ih { st with listenerCount := st.listenerCount + 1 } (by simpa using h)
      simp only [initIter, Bind.bind, Except.bind, hstep, hrest]
      congr 2
      omega

theorem countP_setItem_successBlock (u s : Json) (cbs : List Nat) :
    (successBlock u s cbs).countP isSetItemEv = 1 := by
  simp only [successBlock, List.countP_cons, List.countP_map]
  simp [isSetItemEv, List.countP_eq_zero, Function.comp]

theorem countP_loginCall_successBlock (u s : Json) (cbs : List Nat) (c : Nat) :
    (successBlock u s cbs).countP (isLoginCallOf c) = cbs.count c := by
  simp only [successBlock, List.countP_cons, List.countP_map, Function.comp_def]
  simp [isLoginCallOf, List.count]

theorem handleMessage_iterate_popup_none (e : MessageEvent) (u s : Json)
    (htr : e.data.truthy = true)
    (hty : isSuccessTag (e.data.getField "type") = true)
    (hu : e.data.getField "user" = some u)
    (hs : e.data.getField "service" = some s) :
    ∀ (m : Nat) (st : AuthState), st.popup = none →
      (handleMessage e)^[m + 1] st =
        { st with
            storage := some (JSON_stringify u)
            trace := st.trace ++ (List.replicate (m + 1) (successBlock u s st.loginCbs)).flatten } := by
  intro m
  induction m with
  | zero =>
      intro st h
      rw [Function.iterate_one, handleMessage_success_popup_none e st u s htr hty hu hs h]
      simp
  | succ m ih =>
      intro st h
      rw [Function.iterate_succ_apply]
      have hstep := handleMessage_success_popup_none e st u s htr hty hu hs h
      have hpop2 : (handleMessage e st).popup = none := by rw [hstep]; exact h
      rw [ih (handleMessage e st) hpop2, hstep]
      simp [List.replicate_succ, List.append_assoc]

/-- C9: `init()` has no once-only guard: each of `k` successive calls (on a
state with no persisted session) registers one more `message` listener, so a
single handshake success message afterwards runs the handler `k` times —
persisting the user `k` times and invoking each registered login callback
`k` times; moreover, any `init()` call made while a session is persisted
re-dispatches the replay to the callbacks registered at that moment. -/
theorem C9_init_accumulates_listeners (opts : Options) (k : Nat) (st : AuthState)
    (e : MessageEvent) (u s : Json)
    (hst : st.storage = none) (hpop : st.popup = none) (hlc : st.listenerCount = 0)
    (htr : e.data.truthy = true)
    (hty : isSuccessTag (e.data.getField "type") = true)
    (hu : e.data.getField "user" = some u)
    (hs : e.data.getField "service" = some s)
    (hk : 0 < k) :
    initIter opts k st = .ok { st with listenerCount := k } ∧
    (deliverMessage e { st with listenerCount := k }).trace =
      st.trace ++ (List.replicate k (successBlock u s st.loginCbs)).flatten ∧
    ((List.replicate k (successBlock u s st.loginCbs)).flatten.countP isSetItemEv = k) ∧
    (∀ c : Nat,
      (List.replicate k (successBlock u s st.loginCbs)).flatten.countP (isLoginCallOf c) =
        k * st.loginCbs.count c) ∧
    (∀ (u' : Json) (st' : AuthState), st'.storage = some (JSON_stringify u') →
      init opts st' = .ok { st' with
        listenerCount := st'.listenerCount + 1
        trace := st'.trace ++
          st'.loginCbs.map (fun cb => Event.loginCb cb u' cachedSessionService) }) := by
  obtain ⟨m, rfl⟩ : ∃ m, k = m + 1 := ⟨k - 1, by omega⟩
  refine ⟨?_, ?_, ?_, ?_, ?_⟩
  · have := initIter_storage_none opts (m + 1) st hst
    simpa [hlc] using this
  · have := handleMessage_iterate_popup_none e u s htr hty hu hs m
      { st with listenerCount := m + 1 } (by simpa using hpop)
    simp only [deliverMessage] at *
    simp [this]
  · simp [List.countP_flatten, countP_setItem_successBlock, List.sum_replicate, smul_eq_mul]
  · intro c
    simp [List.countP_flatten, countP_loginCall_successBlock, List.sum_replicate, smul_eq_mul]
  · intro u' st' hst'
    simp [init, hst', JSON_stringify, JSON_parse, StoredString.isTruthy]

/-- A pristine page state with two login subscribers registered and nothing
else: no listeners yet, no popup, no session. -/
def freshState : AuthState := { loginCbs := [1, 2] }

theorem C9_witness :
    initIter {} 2 freshState = .ok { freshState with listenerCount := 2 } ∧
    (deliverMessage spoofedEvent { freshState with listenerCount := 2 }).trace =
      freshState.trace ++
        (List.replicate 2 (successBlock sampleUser sampleService freshState.loginCbs)).flatten ∧
    ((List.replicate 2 (successBlock sampleUser sampleService freshState.loginCbs)).flatten.countP
      isSetItemEv = 2) ∧
    (∀ c : Nat,
      (List.replicate 2 (successBlock sampleUser sampleService freshState.loginCbs)).flatten.countP
        (isLoginCallOf c) = 2 * freshState.loginCbs.count c) ∧
    (∀ (u' : Json) (st' : AuthState), st'.storage = some (JSON_stringify u') →
      init {} st' = .ok { st' with
        listenerCount := st'.listenerCount + 1
        trace := st'.trace ++
          st'.loginCbs.map (fun cb => Event.loginCb cb u' cachedSessionService) }) :=
  C9_init_accumulates_listeners {} 2 freshState spoofedEvent sampleUser sampleService
    rfl rfl rfl rfl rfl rfl rfl (by decide)

/-- Iterated `GuahhAuthAPI.showLogin` with the same `onSuccess` callback called `n`
times in a row. -/
def showLoginIter (c : Nat) (a b : Option String) (env : Env) :
    Nat → AuthState → AuthState
  | 0, st => st
  | n + 1, st => showLoginIter c a b env n (API_showLogin (some c) a b env st)

theorem API_showLogin_loginCbs (c : Nat) (a b : Option String) (env : Env)
    (st : AuthState) :
    (API_showLogin (some c) a b env st).loginCbs = st.loginCbs ++ [c] := by
  cases hb : env.popupBlocked <;> simp [API_showLogin, showAuth, onLogin, hb]

theorem showLoginIter_loginCbs (c : Nat) (a b : Option String) (env : Env) :
    ∀ (n : Nat) (st : AuthState),
      (showLoginIter c a b env n st).loginCbs = st.loginCbs ++ List.replicate n c := by
  intro n
  induction n with
  | zero => intro st; simp [showLoginIter]
  | succ n ih =>
      intro st
      rw [showLoginIter, ih, API_showLogin_loginCbs]
      simp [List.replicate_succ]

theorem handleMessage_countP_loginCall (e : MessageEvent) (u s : Json) (c : Nat)
    (htr : e.data.truthy = true)
    (hty : isSuccessTag (e.data.getField "type") = true)
    (hu : e.data.getField "user" = some u)
    (hs : e.data.getField "service" = some s)
    (st : AuthState) :
    (handleMessage e st).trace.countP (isLoginCallOf c) =
      st.trace.countP (isLoginCallOf c) + st.loginCbs.count c := by
  cases hpop : st.popup with
  | none =>
      rw [handleMessage_success_popup_none e st u s htr hty hu hs hpop]
      simp [List.countP_append, countP_loginCall_successBlock]
  | some p =>
      rw [handleMessage_success_popup_some e st u s p htr hty hu hs hpop]
      simp [List.countP_append, countP_loginCall_successBlock, isLoginCallOf]

/-- C10: a callback handed to the convenience layer — as `showLogin`'s
`onSuccess` option or as `GuahhAuthAPI.logout`'s optional callback — is
appended permanently to the corresponding registry: `n` `showLogin` calls
leave `n` extra copies registered and yield `n` extra invocations on every
later handshake success; a logout callback is dispatched by the `logout`
call it was passed to and by every later logout as well. -/
theorem C10_api_callbacks_are_permanent (c c2 : Nat) (n : Nat) (a b : Option String)
    (env : Env) (st : AuthState) (e : MessageEvent) (u s : Json)
    (htr : e.data.truthy = true)
    (hty : isSuccessTag (e.data.getField "type") = true)
    (hu : e.data.getField "user" = some u)
    (hs : e.data.getField "service" = some s) :
    (API_showLogin (some c) a b env st).loginCbs = st.loginCbs ++ [c] ∧
    (showLoginIter c a b env n st).loginCbs = st.loginCbs ++ List.replicate n c ∧
    (∀ st1 : AuthState, st1.loginCbs = st.loginCbs ++ List.replicate n c →
      (handleMessage e st1).trace.countP (isLoginCallOf c) =
        st1.trace.countP (isLoginCallOf c) + st.loginCbs.count c + n) ∧
    (∀ st2 : AuthState, st2.storage = none →
      API_logout (some c2) st2 = .ok { st2 with
          logoutCbs := st2.logoutCbs ++ [c2]
          storage := none
          trace := st2.trace ++ [Event.removeItem] ++
            (st2.logoutCbs ++ [c2]).map (fun cb => Event.logoutCb cb none) } ∧
      Event.logoutCb c2 none ∈
        (st2.logoutCbs ++ [c2]).map (fun cb => Event.logoutCb cb none)) ∧
    (∀ st3 : AuthState, st3.storage = none → c2 ∈ st3.logoutCbs →
      logout st3 = .ok { st3 with
          storage := none
          trace := st3.trace ++ [Event.removeItem] ++
            st3.logoutCbs.map (fun cb => Event.logoutCb cb none) } ∧
      Event.logoutCb c2 none ∈ st3.logoutCbs.map (fun cb => Event.logoutCb cb none)) := by
  refine ⟨API_showLogin_loginCbs c a b env st, showLoginIter_loginCbs c a b env n st,
    ?_, ?_, ?_⟩
  · intro st1 h1
    rw [handleMessage_countP_loginCall e u s c htr hty hu hs st1, h1]
    simp [List.count_append, List.count_replicate_self, Nat.add_assoc]
  · intro st2 h2
    constructor
    · simp [API_logout, onLogout, logout, getUser, h2, Bind.bind, Except.bind,
        List.append_assoc]
    · simp
  · intro st3 h3 hc
    constructor
    · simp [logout, getUser, h3, Bind.bind, Except.bind, List.append_assoc]
    · exact List.mem_map.mpr ⟨c2, hc, rfl⟩

/-- A benign host environment for the API-layer witness. -/
def sampleEnv : Env :=
  { title := "Demo Page", origin := "https://acme.test", screenW := 1920, screenH := 1080,
    popupBlocked := false }

theorem C10_witness :
    (API_showLogin (some 7) (some "Acme") (some "https://acme.test") sampleEnv
      freshState).loginCbs = freshState.loginCbs ++ [7] ∧
    (showLoginIter 7 (some "Acme") (some "https://acme.test") sampleEnv 3
      freshState).loginCbs = freshState.loginCbs ++ List.replicate 3 7 ∧
    (∀ st1 : AuthState, st1.loginCbs = freshState.loginCbs ++ List.replicate 3 7 →
      (handleMessage spoofedEvent st1).trace.countP (isLoginCallOf 7) =
        st1.trace.countP (isLoginCallOf 7) + freshState.loginCbs.count 7 + 3) ∧
    (∀ st2 : AuthState, st2.storage = none →
      API_logout (some 8) st2 = .ok { st2 with
          logoutCbs := st2.logoutCbs ++ [8]
          storage := none
          trace := st2.trace ++ [Event.removeItem] ++
            (st2.logoutCbs ++ [8]).map (fun cb => Event.logoutCb cb none) } ∧
      Event.logoutCb 8 none ∈
        (st2.logoutCbs ++ [8]).map (fun cb => Event.logoutCb cb none)) ∧
    (∀ st3 : AuthState, st3.storage = none → 8 ∈ st3.logoutCbs →
      logout st3 = .ok { st3 with
          storage := none
          trace := st3.trace ++ [Event.removeItem] ++
            st3.logoutCbs.map (fun cb => Event.logoutCb cb none) } ∧
      Event.logoutCb 8 none ∈ st3.logoutCbs.map (fun cb => Event.logoutCb cb none)) :=
  C10_api_callbacks_are_permanent 7 8 3 (some "Acme") (some "https://acme.test")
    sampleEnv freshState spoofedEvent sampleUser sampleService rfl rfl rfl rfl

end Guahh
